import Mathlib

/-!
Verification of the flicker-minimized display rendering engine of the
ESP32-C3 Fox Energy1 display project (v3 refactor).

Shallow embedding notes:
* C++ `float` values (metric samples, temperatures) are modelled as `ℚ`.
  All comparisons and thresholds in the source are exact decimal constants,
  so rational semantics coincides with the intended decimal arithmetic.
* `round` (C library, half away from zero) is modelled by `cround`.
* `String(float, 1)` / `snprintf "%.1f"` one-decimal formatting of the
  nonnegative values occurring here is modelled by `fmt1dec`.
* Drawing is modelled as a pure function returning the list of paint
  primitives (`PaintEvent`) that the corresponding C++ method would issue,
  plus the updated previous-frame state.  Text metrics (`getTextBounds` of
  the graphics library, an external collaborator) are a parameter
  (`Metrics`); pixel geometry of the 320x240 landscape panel is concrete.
* 32-bit unsigned arithmetic of the WiFi backoff computation is modelled
  with an explicit `% 2 ^ 32`.
-/

/-! ## Configuration constants (config.h, part_009) -/

def SCREEN_W : ℤ := 320
def SCREEN_H : ℤ := 240
def STATUS_BAR_HEIGHT : ℤ := 40
def STATUS_BAR_V_PADDING : ℤ := 20
def STATUS_BAR_FONT_SIZE : ℕ := 2
def POWER_VALUE_FONT_SIZE : ℕ := 11
def POWER_UNIT_FONT_SIZE : ℕ := 3
def VA_FONT_SIZE : ℕ := 5
def TIME_FONT_SIZE : ℕ := 2
def WIFI_ICON_WIDTH : ℤ := 24
def WIFI_ICON_HEIGHT : ℤ := 18
def WIFI_RIGHT_PADDING : ℤ := 5
def TEMP_WIFI_GAP : ℤ := 8
def TIME_SEGMENT_WIDTH : ℤ := 28
def TIME_SEPARATOR_WIDTH : ℤ := 8

/-- RGB565 colors used by the sketch (Adafruit ST77XX color constants). -/
def ST77XX_BLACK : ℕ := 0x0000
def ST77XX_WHITE : ℕ := 0xFFFF
def ST77XX_RED : ℕ := 0xF800
def ST77XX_GREEN : ℕ := 0x07E0
def ST77XX_BLUE : ℕ := 0x001F
def ST77XX_CYAN : ℕ := 0x07FF
def ST77XX_MAGENTA : ℕ := 0xF81F
def ST77XX_YELLOW : ℕ := 0xFFE0
def ST77XX_ORANGE : ℕ := 0xFC00
def ST77XX_DARKGREY : ℕ := 0x4228

def BG_COLOR : ℕ := ST77XX_BLACK
def STATUS_BAR_BG_COLOR : ℕ := ST77XX_BLACK
def STATUS_BAR_LINE_COLOR : ℕ := ST77XX_DARKGREY

def POWER_COLOR_NORMAL : ℕ := ST77XX_GREEN
def POWER_COLOR_MEDIUM : ℕ := ST77XX_YELLOW
def POWER_COLOR_HIGH : ℕ := ST77XX_ORANGE
def POWER_COLOR_MAX : ℕ := ST77XX_RED

def VOLTAGE_COLOR : ℕ := ST77XX_CYAN
def CURRENT_COLOR : ℕ := ST77XX_MAGENTA
def WIFI_ICON_COLOR : ℕ := ST77XX_WHITE
def TIME_COLOR : ℕ := ST77XX_WHITE

def TEMP_COLOR_GREEN : ℕ := ST77XX_GREEN
def TEMP_COLOR_YELLOW : ℕ := ST77XX_YELLOW
def TEMP_COLOR_ORANGE : ℕ := ST77XX_ORANGE
def TEMP_COLOR_RED : ℕ := ST77XX_RED

def ENABLE_DOUBLE_BUFFER : Bool := true

def POWER_CHANGE_THRESHOLD : ℚ := 1/2
def CURRENT_CHANGE_THRESHOLD : ℚ := 1/20

def WIFI_RECONNECT_MAX_ATTEMPTS : ℕ := 3
def WIFI_RECONNECT_BACKOFF_MS : ℕ := 1000

/-! ## Data model (types.h) -/

/-- Power measurement data from the Fox Energy API. -/
structure PowerData where
  voltage : ℚ
  current : ℚ
  power_active : ℚ
deriving DecidableEq, Repr

/-- Status bar display data. -/
structure StatusData where
  internal_temp : ℚ
  rssi : ℤ
  time_str : String
  hours : String
  minutes : String
  seconds : String
deriving DecidableEq, Repr

/-- Double buffering modes. -/
inductive BufferMode where
  | DIRECT
  | TILE
  | FULL
deriving DecidableEq, Repr

/-- WiFi connection state. -/
inductive WiFiState where
  | WIFI_DISCONNECTED
  | WIFI_CONNECTING
  | WIFI_CONNECTED
  | WIFI_RECONNECTING
  | WIFI_FAILED
deriving DecidableEq, Repr

/-! ## Numeric formatting helpers -/

/-- C `round`: round half away from zero (used via `(int)round(v)` etc.). -/
def cround (q : ℚ) : ℤ := if 0 ≤ q then ⌊q + 1/2⌋ else ⌈q - 1/2⌉

/-- One-decimal formatting of a nonnegative value, as produced by the
Arduino `String(float, 1)` constructor and `snprintf "%.1f"` for the
nonnegative in-range values of this application. -/
def fmt1dec (q : ℚ) : String :=
  let n := cround (q * 10)
  toString (n / 10) ++ "." ++ toString (n % 10)

/-! ## Derived classification values (display_manager.h) -/

/-- `DisplayManager::getRSSILevel`: map RSSI to signal level (0-4). -/
def getRSSILevel (rssi : ℤ) : ℤ :=
  if rssi ≥ -55 then 4
  else if rssi ≥ -65 then 3
  else if rssi ≥ -75 then 2
  else if rssi ≥ -85 then 1
  else 0

/-- `DisplayManager::getPowerColor`: power display color from value. -/
def getPowerColor (power : ℚ) : ℕ :=
  if power ≤ 1500 then POWER_COLOR_NORMAL
  else if power ≤ 2500 then POWER_COLOR_MEDIUM
  else if power ≤ 3500 then POWER_COLOR_HIGH
  else POWER_COLOR_MAX

/-- Temperature color thresholds inside `DisplayManager::drawTemperature`. -/
def tempColor (rounded_temp : ℤ) : ℕ :=
  if rounded_temp < 60 then TEMP_COLOR_GREEN
  else if rounded_temp ≤ 65 then TEMP_COLOR_YELLOW
  else if rounded_temp ≤ 70 then TEMP_COLOR_ORANGE
  else TEMP_COLOR_RED

/-- Value/unit/gap selection of `DisplayManager::drawPowerValue`
(kW with one decimal from 1000 W up, otherwise whole watts). -/
def formatPower (value : ℚ) : String × String × ℤ :=
  if 1000 ≤ value then (fmt1dec (value / 1000), "kW", 2)
  else (toString (cround value), "W", 3)

/-- Voltage string of `DisplayManager::drawVoltageCurrentRevised`
(`snprintf "%dV" (int)round(v)`). -/
def formatVoltage (v : ℚ) : String := toString (cround v) ++ "V"

/-- Current string of `DisplayManager::drawVoltageCurrentRevised`
(`snprintf "%.1fA" c`). -/
def formatCurrent (c : ℚ) : String := fmt1dec c ++ "A"

/-- Temperature string of `DisplayManager::drawTemperature`
(`snprintf "%ld%cC"` with the degree character 247). -/
def tempStr (rounded_temp : ℤ) : String :=
  toString rounded_temp ++ String.mk [Char.ofNat 247, 'C']

/-! ## Drawing surface abstraction

`getTextBounds` of the graphics library is an external collaborator; its
text measurements are a parameter of the rendering model. -/

/-- External text metrics (`Adafruit_GFX::getTextBounds`): pixel width and
height of a string at a font size. -/
structure Metrics where
  textW : String → ℕ → ℤ
  textH : String → ℕ → ℤ

/-- The classic built-in 6x8 font of the graphics library, used to
instantiate witnesses: width `6 * size * length`, height `8 * size`. -/
def testMetrics : Metrics :=
  { textW := fun s n => 6 * (n : ℤ) * (s.length : ℤ)
    textH := fun _ n => 8 * (n : ℤ) }

/-- Screen fields, used to tag each paint primitive with the field whose
renderer issued it. -/
inductive UiField where
  | powerField
  | voltageField
  | currentField
  | hoursField
  | minutesField
  | secondsField
  | separatorField
  | temperatureField
  | wifiField
  | screenField
deriving DecidableEq, Repr

/-- The two buffered regions. -/
inductive Region where
  | statusRegion
  | mainRegion
deriving DecidableEq, Repr

/-- Paint primitives of the display boundary: rectangle fill, text draw,
horizontal line, canvas clear (`fillScreen` on a canvas) and canvas flush
(`drawRGBBitmap` block transfer). -/
inductive PaintEvent where
  | fillRect (f : UiField) (x y w h : ℤ) (color : ℕ)
  | drawText (f : UiField) (s : String) (x y : ℤ) (color : ℕ)
  | hLine (x y w : ℤ) (color : ℕ)
  | clearCanvas (r : Region) (color : ℕ)
  | flushRegion (r : Region) (x y : ℤ)
deriving DecidableEq, Repr

/-- Whether an event is a rectangle fill issued for field `f`. -/
def isFillOf (f : UiField) : PaintEvent → Bool
  | .fillRect g _ _ _ _ _ => decide (g = f)
  | _ => false

/-- `true` when some fill for field `f` occurs in the event list. -/
def hasFill (f : UiField) (evs : List PaintEvent) : Bool := evs.any (isFillOf f)

/-- Number of rectangle fills issued for field `f`. -/
def countFill (f : UiField) (evs : List PaintEvent) : ℕ :=
  (evs.filter (isFillOf f)).length

/-- The draw target returned by `DisplayManager::getDrawTarget`: the canvas
when it exists with a valid buffer, else the physical panel. -/
inductive DrawTarget where
  | canvasTarget
  | panelTarget
deriving DecidableEq, Repr

/-- `DisplayManager::getDrawTarget` for a region whose canvas validity is
`canvasValid` (allocation succeeded and the underlying buffer is non-null;
the failure path of `begin` deletes and nulls the handle on either). -/
def getDrawTarget (canvasValid : Bool) : DrawTarget :=
  if canvasValid then .canvasTarget else .panelTarget

/-! ## DisplayManager state -/

/-- The `DisplayManager` member state relevant to rendering: canvas
availability and the previous-frame render state used for change
detection. -/
structure DisplayState where
  statusCanvas : Bool
  mainCanvas : Bool
  buffer_mode : BufferMode
  prev_power : PowerData
  prev_status : StatusData
  prev_power_color : ℕ
  prev_rssi_level : ℤ
deriving DecidableEq, Repr

/-- Member state established by the `DisplayManager` constructor. -/
def initialDisplayState : DisplayState :=
  { statusCanvas := false
    mainCanvas := false
    buffer_mode := .DIRECT
    prev_power := ⟨-1, -1, -1⟩
    prev_status :=
      { internal_temp := -100, rssi := -100, time_str := ""
        hours := "", minutes := "", seconds := "" }
    prev_power_color := BG_COLOR
    prev_rssi_level := -1 }

/-- `DisplayManager::begin`, parameterized by the outcome of the two heap
allocations (`new GFXcanvas16` succeeding with a non-null buffer).  On a
failed allocation the canvas is deleted and the pointer nulled; it is
never allocated again by any other method. -/
def beginDisplay (statusAllocOk mainAllocOk : Bool) : DisplayState :=
  if ENABLE_DOUBLE_BUFFER then
    { initialDisplayState with
      statusCanvas := statusAllocOk
      mainCanvas := mainAllocOk
      buffer_mode := if statusAllocOk || mainAllocOk then .TILE else .DIRECT }
  else
    { initialDisplayState with buffer_mode := .DIRECT }

/-! ## Runtime UI positions computed in `begin` (320x240 landscape) -/

def wifi_icon_y : ℤ := (STATUS_BAR_HEIGHT - WIFI_ICON_HEIGHT) / 2
def wifi_icon_x : ℤ := SCREEN_W - WIFI_ICON_WIDTH - WIFI_RIGHT_PADDING
def temp_text_right_x : ℤ := wifi_icon_x - TEMP_WIFI_GAP
def time_text_left_x : ℤ := 5

/-! ## Region renderers -/

/-- `DisplayManager::getTextCenterPos`. -/
def getTextCenterPos (m : Metrics) (text : String) (font_size : ℕ)
    (area_x area_y area_w area_h : ℤ) : ℤ × ℤ :=
  let w := m.textW text font_size
  let h := m.textH text font_size
  (area_x + (area_w - w) / 2, area_y + (area_h - h) / 2 + 1)

/-- `DisplayManager::drawWiFiIcon`: background fill plus the four signal
bars (the `for` loop over `i = 0..3` is unrolled; `bar_w = 4`,
`bar_gap = 2`, `start_x = wifi_icon_x + (24 - 22) / 2`). -/
def drawWiFiIcon (level : ℤ) : List PaintEvent :=
  let start_x := wifi_icon_x + (WIFI_ICON_WIDTH - 22) / 2
  [PaintEvent.fillRect .wifiField wifi_icon_x wifi_icon_y WIFI_ICON_WIDTH
     WIFI_ICON_HEIGHT STATUS_BAR_BG_COLOR,
   PaintEvent.fillRect .wifiField start_x (wifi_icon_y + 18 - 4) 4 4
     (if level ≥ 1 then WIFI_ICON_COLOR else STATUS_BAR_LINE_COLOR),
   PaintEvent.fillRect .wifiField (start_x + 6) (wifi_icon_y + 18 - 9) 4 9
     (if level ≥ 2 then WIFI_ICON_COLOR else STATUS_BAR_LINE_COLOR),
   PaintEvent.fillRect .wifiField (start_x + 12) (wifi_icon_y + 18 - 13) 4 13
     (if level ≥ 3 then WIFI_ICON_COLOR else STATUS_BAR_LINE_COLOR),
   PaintEvent.fillRect .wifiField (start_x + 18) (wifi_icon_y + 18 - 18) 4 18
     (if level ≥ 4 then WIFI_ICON_COLOR else STATUS_BAR_LINE_COLOR)]

/-- `DisplayManager::drawTemperature`. -/
def drawTemperature (m : Metrics) (rounded_temp : ℤ) : List PaintEvent :=
  let t := tempStr rounded_temp
  let max_temp_width_pixels : ℤ := 65
  let clear_x0 := temp_text_right_x - max_temp_width_pixels
  let clear_x := if clear_x0 < 0 then 0 else clear_x0
  let clear_width := if clear_x = 0 then temp_text_right_x else max_temp_width_pixels
  let w := m.textW t STATUS_BAR_FONT_SIZE
  let h := m.textH t STATUS_BAR_FONT_SIZE
  [PaintEvent.fillRect .temperatureField clear_x 0 clear_width STATUS_BAR_HEIGHT
     STATUS_BAR_BG_COLOR,
   PaintEvent.drawText .temperatureField t (temp_text_right_x - w)
     ((STATUS_BAR_HEIGHT - h) / 2 + 1) (tempColor rounded_temp)]

/-- `DisplayManager::drawTimeSegment`.  The `f` argument is instrumentation
only: it records which time slot (hours, minutes or seconds) the caller is
painting; the source passes the slot through `x_pos`. -/
def drawTimeSegment (m : Metrics) (f : UiField) (text prev_text : String)
    (x_pos : ℤ) (force_redraw : Bool) : List PaintEvent :=
  if decide (text ≠ prev_text) || force_redraw then
    [PaintEvent.fillRect f x_pos 0 TIME_SEGMENT_WIDTH STATUS_BAR_HEIGHT
       STATUS_BAR_BG_COLOR,
     PaintEvent.drawText f text (x_pos + TIME_SEGMENT_WIDTH - m.textW text TIME_FONT_SIZE)
       ((STATUS_BAR_HEIGHT - m.textH text TIME_FONT_SIZE) / 2 + 1) TIME_COLOR]
  else []

/-- `DisplayManager::drawTimeSeparator`. -/
def drawTimeSeparator (x_pos : ℤ) (force_redraw : Bool) : List PaintEvent :=
  if force_redraw then
    [PaintEvent.drawText .separatorField (":") x_pos
       ((STATUS_BAR_HEIGHT - 16) / 2 + 1) TIME_COLOR]
  else []

/-- `DisplayManager::drawTime`: three fixed-width segments with two static
separators.  `prev` is the member `prev_status` at call time. -/
def drawTime (m : Metrics) (prev status : StatusData) (force_redraw : Bool) :
    List PaintEvent :=
  let time_start_x := time_text_left_x
  let sep1_x := time_start_x + TIME_SEGMENT_WIDTH
  let min_x := sep1_x + TIME_SEPARATOR_WIDTH
  let sep2_x := min_x + TIME_SEGMENT_WIDTH
  let sec_x := sep2_x + TIME_SEPARATOR_WIDTH
  drawTimeSegment m .hoursField status.hours prev.hours time_start_x force_redraw ++
  drawTimeSeparator sep1_x force_redraw ++
  drawTimeSegment m .minutesField status.minutes prev.minutes min_x force_redraw ++
  drawTimeSeparator sep2_x force_redraw ++
  drawTimeSegment m .secondsField status.seconds prev.seconds sec_x force_redraw

/-- `DisplayManager::drawPowerValue`. -/
def drawPowerValue (m : Metrics) (value : ℚ) (value_color : ℕ)
    (area_x area_y area_w area_h : ℤ) (prev_value : ℚ) (prev_color : ℕ)
    (force_redraw : Bool) : List PaintEvent :=
  let value_changed := decide (POWER_CHANGE_THRESHOLD < |value - prev_value|)
  let color_changed := decide (value_color ≠ prev_color)
  if !value_changed && !color_changed && !force_redraw then []
  else
    let fp := formatPower value
    let value_str := fp.1
    let unit_str := fp.2.1
    let unit_gap := fp.2.2
    let value_w := m.textW value_str POWER_VALUE_FONT_SIZE
    let value_h := m.textH value_str POWER_VALUE_FONT_SIZE
    let unit_w := m.textW unit_str POWER_UNIT_FONT_SIZE
    let unit_h := m.textH unit_str POWER_UNIT_FONT_SIZE
    let total_w := value_w + unit_gap + unit_w
    let start_x := area_x + (area_w - total_w) / 2
    let start_y := area_y + (area_h - value_h) / 2
    let unit_y := start_y + (value_h - unit_h) - value_h / 10
    [PaintEvent.fillRect .powerField area_x area_y area_w area_h BG_COLOR,
     PaintEvent.drawText .powerField value_str start_x start_y value_color,
     PaintEvent.drawText .powerField unit_str (start_x + value_w + unit_gap)
       unit_y value_color]

/-- `DisplayManager::drawVoltageCurrentRevised`. -/
def drawVoltageCurrentRevised (m : Metrics) (v c : ℚ) (font_size : ℕ)
    (v_color c_color : ℕ) (area_x area_y area_w area_h : ℤ)
    (prev_v prev_c : ℚ) (force_redraw : Bool) : List PaintEvent :=
  let v_str := formatVoltage v
  let c_str := formatCurrent c
  let v_changed := decide (cround v ≠ cround prev_v)
  let c_changed := decide (CURRENT_CHANGE_THRESHOLD < |c - prev_c|)
  if !v_changed && !c_changed && !force_redraw then []
  else
    let value_area_w := area_w / 2
    let v_area_x := area_x
    let c_area_x := area_x + value_area_w
    let v_evs :=
      if v_changed || force_redraw then
        let p := getTextCenterPos m v_str font_size v_area_x area_y value_area_w area_h
        [PaintEvent.fillRect .voltageField v_area_x area_y value_area_w area_h BG_COLOR,
         PaintEvent.drawText .voltageField v_str p.1 p.2 v_color]
      else []
    let c_evs :=
      if c_changed || force_redraw then
        let p := getTextCenterPos m c_str font_size c_area_x area_y value_area_w area_h
        [PaintEvent.fillRect .currentField c_area_x area_y value_area_w area_h BG_COLOR,
         PaintEvent.drawText .currentField c_str p.1 p.2 c_color]
      else []
    v_evs ++ c_evs

/-! ## Composite renderers -/

/-- `DisplayManager::drawStatusBar`.  Returns the updated member state and
the paint primitives issued.  `flushCanvas` is the trailing block-transfer
event when the canvas is in use. -/
def drawStatusBar (m : Metrics) (s : DisplayState) (status : StatusData)
    (force_redraw : Bool) : DisplayState × List PaintEvent :=
  let current_level := getRSSILevel status.rssi
  let rounded_temp := cround status.internal_temp
  let time_changed := decide (status.hours ≠ s.prev_status.hours) ||
    decide (status.minutes ≠ s.prev_status.minutes) ||
    decide (status.seconds ≠ s.prev_status.seconds)
  let rssi_changed := decide (current_level ≠ s.prev_rssi_level)
  let temp_changed := decide (rounded_temp ≠ cround s.prev_status.internal_temp)
  let using_canvas := s.statusCanvas
  let eff := force_redraw || using_canvas
  if !rssi_changed && !temp_changed && !time_changed && !eff then (s, [])
  else
    let clear_evs :=
      if using_canvas then [PaintEvent.clearCanvas .statusRegion STATUS_BAR_BG_COLOR]
      else []
    let wifi_evs := if rssi_changed || eff then drawWiFiIcon current_level else []
    let s1 :=
      if rssi_changed || eff then { s with prev_rssi_level := current_level } else s
    let temp_evs := if temp_changed || eff then drawTemperature m rounded_temp else []
    let s2 :=
      if temp_changed || eff then
        { s1 with prev_status := { s1.prev_status with internal_temp := status.internal_temp } }
      else s1
    let time_evs := if time_changed || eff then drawTime m s2.prev_status status eff else []
    let s3 :=
      if time_changed || eff then
        { s2 with prev_status :=
          { s2.prev_status with
            hours := status.hours, minutes := status.minutes, seconds := status.seconds } }
      else s2
    let flush_evs :=
      if using_canvas then [PaintEvent.flushRegion .statusRegion 0 0] else []
    (s3, clear_evs ++ wifi_evs ++ temp_evs ++ time_evs ++ flush_evs)

/-- `DisplayManager::drawMainDisplay`.  Note that the member previous
values are overwritten unconditionally at the end of the method. -/
def drawMainDisplay (m : Metrics) (s : DisplayState) (power : PowerData)
    (force_redraw : Bool) : DisplayState × List PaintEvent :=
  let main_area_y := STATUS_BAR_HEIGHT + 1 + STATUS_BAR_V_PADDING
  let main_area_h := SCREEN_H - main_area_y
  let power_area_y : ℤ := 0
  let power_area_h := main_area_h * 3 / 5
  let va_area_y := power_area_h
  let va_area_h := main_area_h - power_area_h
  let current_power_color := getPowerColor power.power_active
  let using_canvas := s.mainCanvas
  let eff := force_redraw || using_canvas
  let clear_evs :=
    if using_canvas then [PaintEvent.clearCanvas .mainRegion BG_COLOR] else []
  let p_evs := drawPowerValue m power.power_active current_power_color
    0 power_area_y SCREEN_W power_area_h
    s.prev_power.power_active s.prev_power_color eff
  let va_evs := drawVoltageCurrentRevised m power.voltage power.current
    VA_FONT_SIZE VOLTAGE_COLOR CURRENT_COLOR
    0 va_area_y SCREEN_W va_area_h
    s.prev_power.voltage s.prev_power.current eff
  let flush_evs :=
    if using_canvas then [PaintEvent.flushRegion .mainRegion 0 main_area_y] else []
  ({ s with prev_power := power, prev_power_color := current_power_color },
   clear_evs ++ p_evs ++ va_evs ++ flush_evs)

/-- `DisplayManager::drawFullScreenMessage`. -/
def drawFullScreenMessage (m : Metrics) (text : String) (textSize : ℕ)
    (color : ℕ) : List PaintEvent :=
  let w := m.textW text textSize
  let h := m.textH text textSize
  [PaintEvent.fillRect .screenField 0 0 SCREEN_W SCREEN_H BG_COLOR,
   PaintEvent.drawText .screenField text ((SCREEN_W - w) / 2) ((SCREEN_H - h) / 2) color]

/-- The placeholder status drawn by `DisplayManager::drawInitialUI`
(`temp` is the `temperatureRead()` result, an external input). -/
def initStatus (temp : ℚ) : StatusData :=
  { internal_temp := temp, rssi := -100, time_str := "--:--:--"
    hours := "--", minutes := "--", seconds := "--" }

/-- `DisplayManager::drawInitialUI`: full-screen clear, status bar line,
forced redraw of both regions with placeholder values, and
re-establishment of the previous-value baseline. -/
def drawInitialUI (m : Metrics) (s : DisplayState) (temp : ℚ) :
    DisplayState × List PaintEvent :=
  let head_evs :=
    [PaintEvent.fillRect .screenField 0 0 SCREEN_W SCREEN_H BG_COLOR,
     PaintEvent.hLine 0 STATUS_BAR_HEIGHT SCREEN_W STATUS_BAR_LINE_COLOR]
  let st := initStatus temp
  let pw : PowerData := ⟨0, 0, 0⟩
  let r1 := drawStatusBar m s st true
  let r2 := drawMainDisplay m r1.1 pw true
  let s3 :=
    { r2.1 with
      prev_status := st
      prev_power := pw
      prev_power_color := POWER_COLOR_NORMAL
      prev_rssi_level := getRSSILevel st.rssi }
  (s3, head_evs ++ r1.2 ++ r2.2)

/-! ## Orchestrator operations (v3 sketch, part_006)

The operations the sketch performs on the display manager after `begin`.
The startup animation method of the display manager draws through a local
strip buffer that it frees before returning, never touches the two region
canvases, and is not invoked by the v3 sketch, so it does not appear here. -/

inductive DisplayOp where
  | statusBarOp (status : StatusData) (force_redraw : Bool)
  | mainDisplayOp (power : PowerData) (force_redraw : Bool)
  | initialUIOp (temp : ℚ)
  | fullScreenMessageOp (text : String) (textSize : ℕ) (color : ℕ)
deriving Repr

/-- Apply one display operation. -/
def applyOp (m : Metrics) (s : DisplayState) : DisplayOp → DisplayState × List PaintEvent
  | .statusBarOp status f => drawStatusBar m s status f
  | .mainDisplayOp power f => drawMainDisplay m s power f
  | .initialUIOp temp => drawInitialUI m s temp
  | .fullScreenMessageOp text sz c => (s, drawFullScreenMessage m text sz c)

/-- Run a sequence of display operations, accumulating paint events. -/
def runOps (m : Metrics) (s : DisplayState) : List DisplayOp → DisplayState × List PaintEvent
  | [] => (s, [])
  | op :: rest =>
    let r := applyOp m s op
    let r2 := runOps m r.1 rest
    (r2.1, r.2 ++ r2.2)

/-- The success path of `handleWiFiDisconnection` in the v3 sketch: the
disconnected status bar and advisory are drawn, `reconnect()` succeeds,
the success message is shown and `drawInitialUI` re-establishes the
display.  Returns the final display state, the events drawn before the
reconnection succeeded, and the recovery-cycle events drawn after it.
`status0` is `currentStatus` at entry; `temp1` and `temp3` are the two
`temperatureRead()` results. -/
def handleWiFiDisconnectionSuccess (m : Metrics) (s : DisplayState)
    (status0 : StatusData) (temp1 temp3 : ℚ) :
    DisplayState × List PaintEvent × List PaintEvent :=
  let st1 := { status0 with rssi := -100, internal_temp := temp1 }
  let r1 := drawStatusBar m s st1 true
  let lost_evs := drawFullScreenMessage m ("WiFi Lost!\nReconnecting...") 2 ST77XX_RED
  let ok_evs := drawFullScreenMessage m ("WiFi Reconnected!") 2 ST77XX_GREEN
  let r2 := drawInitialUI m r1.1 temp3
  (r2.1, r1.2 ++ lost_evs, ok_evs ++ r2.2)

/-! ## Data fetcher (data_fetcher.h) -/

/-- `DataFetcher` member state. -/
structure FetcherState where
  last_fetch_time : ℕ
  last_fetch_successful : Bool
  consecutive_failures : ℕ
deriving DecidableEq, Repr

/-- `DataFetcher` constructor. -/
def initialFetcherState : FetcherState :=
  { last_fetch_time := 0, last_fetch_successful := false, consecutive_failures := 0 }

/-- Result of the external JSON deserialization (`deserializeJson` plus the
three `containsKey` checks): either failure, or the three extracted float
values. -/
structure JsonPayload where
  deserializeOk : Bool
  hasVoltage : Bool
  hasCurrent : Bool
  hasPower : Bool
  voltage : ℚ
  current : ℚ
  power_active : ℚ
deriving DecidableEq, Repr

/-- Outcome of the HTTP GET (external collaborator): 200 with a payload,
an HTTP error status, or a connection error. -/
inductive HttpOutcome where
  | okPayload (p : JsonPayload)
  | httpError (code : ℤ)
  | connError (code : ℤ)
deriving Repr

/-- `DataFetcher::parseJSON`.  The out-parameter `data` is threaded
explicitly: the parsed values are assigned into it before the sanity-range
validation runs. -/
def parseJSON (p : JsonPayload) (data : PowerData) : PowerData × Bool :=
  if !p.deserializeOk then (data, false)
  else if !p.hasVoltage || !p.hasCurrent || !p.hasPower then (data, false)
  else
    let data1 : PowerData :=
      { voltage := p.voltage, current := p.current, power_active := p.power_active }
    if decide (data1.voltage < 0) || decide (data1.voltage > 500) then (data1, false)
    else if decide (data1.current < 0) || decide (data1.current > 100) then (data1, false)
    else if decide (data1.power_active < 0) || decide (data1.power_active > 50000) then
      (data1, false)
    else (data1, true)

/-- `DataFetcher::fetchPowerData`: returns the updated member state, the
out-parameter `data` after the call, and the boolean result. -/
def fetchPowerData (st : FetcherState) (now : ℕ) (outcome : HttpOutcome)
    (data : PowerData) : FetcherState × PowerData × Bool :=
  match outcome with
  | .okPayload p =>
    let r := parseJSON p data
    if r.2 then
      ({ st with
          last_fetch_time := now
          last_fetch_successful := true
          consecutive_failures := 0 }, r.1, true)
    else
      ({ st with
          last_fetch_successful := false
          consecutive_failures := st.consecutive_failures + 1 }, r.1, false)
  | .httpError _ =>
    ({ st with
        last_fetch_successful := false
        consecutive_failures := st.consecutive_failures + 1 }, data, false)
  | .connError _ =>
    ({ st with
        last_fetch_successful := false
        consecutive_failures := st.consecutive_failures + 1 }, data, false)

/-! ## The data-fetch branch of the main loop (part_006) -/

/-- Application state touched by the connected data-fetch branch of
`loop()`. -/
structure AppState where
  disp : DisplayState
  fetcher : FetcherState
  currentPower : PowerData
deriving Repr

/-- The connected data-fetch branch of `loop()`: fetch into
`currentPower`; on success redraw the main display, on failure keep the
display untouched (the last good values remain on screen). -/
def fetchCycle (m : Metrics) (app : AppState) (now : ℕ) (outcome : HttpOutcome)
    (force_redraw : Bool) : AppState × List PaintEvent :=
  let r := fetchPowerData app.fetcher now outcome app.currentPower
  if r.2.2 then
    let d := drawMainDisplay m app.disp r.2.1 force_redraw
    ({ disp := d.1, fetcher := r.1, currentPower := r.2.1 }, d.2)
  else
    ({ disp := app.disp, fetcher := r.1, currentPower := r.2.1 }, [])

/-! ## WiFi manager (wifi_manager.h) -/

/-- `WiFiManager` member state relevant to reconnection. -/
structure WMState where
  wstate : WiFiState
  reconnect_attempts : ℕ
  last_reconnect_attempt : ℕ
deriving DecidableEq, Repr

/-- The backoff delay computed by `WiFiManager::reconnect`:
`WIFI_RECONNECT_BACKOFF_MS * (1 << reconnect_attempts)` evaluated in the
32-bit `unsigned long` arithmetic of the target (explicit wrap at
`2 ^ 32`), then capped by `min(..., 16000UL)`. -/
def backoffDelay (attempts : ℕ) : ℕ :=
  min (WIFI_RECONNECT_BACKOFF_MS * 2 ^ attempts % 2 ^ 32) 16000

/-- `WiFiManager::reconnect`, parameterized by the external link state:
`alreadyConnected` is the entry `isConnected()` check and
`attemptSucceeds` the outcome of the timed `WiFi.begin` wait. -/
def wifiReconnect (st : WMState) (alreadyConnected : Bool) (now : ℕ)
    (attemptSucceeds : Bool) : WMState × Bool :=
  if alreadyConnected then ({ st with wstate := .WIFI_CONNECTED }, true)
  else if now - st.last_reconnect_attempt < backoffDelay st.reconnect_attempts then
    (st, false)
  else
    let st1 := { st with last_reconnect_attempt := now, wstate := .WIFI_RECONNECTING }
    if attemptSucceeds then
      ({ st1 with wstate := .WIFI_CONNECTED, reconnect_attempts := 0 }, true)
    else
      let a := st1.reconnect_attempts + 1
      ({ st1 with
         reconnect_attempts := a
         wstate := if a ≥ WIFI_RECONNECT_MAX_ATTEMPTS then .WIFI_FAILED
           else .WIFI_RECONNECTING }, false)

/-! ## Helper facts about paint-event lists -/

theorem hasFill_nil (f : UiField) : hasFill f [] = false := rfl

theorem hasFill_append (f : UiField) (a b : List PaintEvent) :
    hasFill f (a ++ b) = (hasFill f a || hasFill f b) := by
  simp [hasFill]

theorem countFill_append (f : UiField) (a b : List PaintEvent) :
    countFill f (a ++ b) = countFill f a + countFill f b := by
  simp [countFill]

/-- The strings drawn by a list of paint events, in order. -/
def textsOf (evs : List PaintEvent) : List String :=
  evs.filterMap fun e =>
    match e with
    | .drawText _ t _ _ _ => some t
    | _ => none

/-! ## Claims -/

/-- C1: for samples A and B whose activePower values differ by at most
`POWER_CHANGE_THRESHOLD` and classify to the same power color bucket, the
power-field renderer invoked for B with the previous-frame values stored
after rendering A and a false force-redraw flag issues no paint primitive
at all.  (`drawMainDisplay` passes the stored `prev_power.power_active`
and `prev_power_color`, which after rendering A are A's value and A's
bucket color; in buffered mode it instead forces the effective flag true
by design, which is outside the claim's `forceRedraw = false` premise.) -/
theorem power_redraw_suppressed_under_threshold (m : Metrics) (A B : PowerData)
    (area_x area_y area_w area_h : ℤ)
    (hclose : |B.power_active - A.power_active| ≤ POWER_CHANGE_THRESHOLD)
    (hbucket : getPowerColor B.power_active = getPowerColor A.power_active) :
    drawPowerValue m B.power_active (getPowerColor B.power_active)
      area_x area_y area_w area_h A.power_active (getPowerColor A.power_active)
      false = [] := by
  have h1 : ¬ (POWER_CHANGE_THRESHOLD < |B.power_active - A.power_active|) :=
    not_lt.mpr hclose
  simp [drawPowerValue, h1, hbucket]

def sampleA : PowerData := ⟨230, 4, 1000⟩
def sampleB : PowerData := ⟨230, 4, 10003/10⟩

theorem power_redraw_suppressed_under_threshold_witness :
    (|sampleB.power_active - sampleA.power_active| ≤ POWER_CHANGE_THRESHOLD ∧
      getPowerColor sampleB.power_active = getPowerColor sampleA.power_active) ∧
    drawPowerValue testMetrics sampleB.power_active
      (getPowerColor sampleB.power_active) 0 0 SCREEN_W 107
      sampleA.power_active (getPowerColor sampleA.power_active) false = [] :=
  ⟨⟨by norm_num [sampleA, sampleB, POWER_CHANGE_THRESHOLD, abs_le],
    by norm_num [sampleA, sampleB, getPowerColor]⟩,
    power_redraw_suppressed_under_threshold testMetrics sampleA sampleB
      0 0 SCREEN_W 107
      (by norm_num [sampleA, sampleB, POWER_CHANGE_THRESHOLD, abs_le])
      (by norm_num [sampleA, sampleB, getPowerColor])⟩

/-- C2: the kW/W switch of the power field happens exactly at 1000 W: the
unit is "kW" iff the value is at least 1000, in which case the value is
shown in kilowatts with one decimal place, otherwise rounded to the
nearest whole watt; in particular 999.9 renders as "1000" with unit "W"
and 1000.0 renders as "1.0" with unit "kW". -/
theorem power_unit_switch_at_1000 :
    (∀ p : ℚ, (formatPower p).2.1 = "kW" ↔ 1000 ≤ p) ∧
    (∀ p : ℚ, 1000 ≤ p → (formatPower p).1 = fmt1dec (p / 1000)) ∧
    (∀ p : ℚ, p < 1000 → (formatPower p).1 = toString (cround p)) ∧
    formatPower (9999/10) = ("1000", "W", 3) ∧
    formatPower 1000 = ("1.0", "kW", 2) := by
  refine ⟨?_, ?_, ?_, ?_, ?_⟩
  · intro p
    by_cases h : (1000 : ℚ) ≤ p <;> simp [formatPower, h]
  · intro p h
    simp [formatPower, h]
  · intro p h
    simp [formatPower, not_le.mpr h]
  · norm_num [formatPower, cround]
    decide
  · norm_num [formatPower, fmt1dec, cround]
    decide

theorem power_unit_switch_at_1000_witness :
    ((1000 : ℚ) ≤ 1001 ∧ (formatPower 1001).1 = fmt1dec (1001 / 1000)) ∧
    ((9999 : ℚ)/10 < 1000 ∧ (formatPower (9999/10)).1 = toString (cround (9999/10))) :=
  ⟨⟨by norm_num, power_unit_switch_at_1000.2.1 1001 (by norm_num)⟩,
    ⟨by norm_num, power_unit_switch_at_1000.2.2.1 (9999/10) (by norm_num)⟩⟩

/-- C3: for the sample voltage 230.4, current 4.35, activePower 1001, the
renderer produces voltage string "230V", current string "4.4A", power
value "1.0" with unit "kW" and the normal (at most 1500 W) power color
bucket; a forced main-display render of that sample draws exactly those
four strings.  (The one-decimal rounding is taken over the exact decimal
values; 4.35 rounds up to 4.4.) -/
theorem scenario_sample_rendering :
    formatVoltage (2304/10) = "230V" ∧
    formatCurrent (435/100) = "4.4A" ∧
    formatPower 1001 = ("1.0", "kW", 2) ∧
    getPowerColor 1001 = POWER_COLOR_NORMAL ∧
    textsOf (drawMainDisplay testMetrics (beginDisplay false false)
      ⟨2304/10, 435/100, 1001⟩ true).2 = ["1.0", "kW", "230V", "4.4A"] := by
  refine ⟨?_, ?_, ?_, ?_, ?_⟩
  · norm_num [formatVoltage, cround]
    decide
  · norm_num [formatCurrent, fmt1dec, cround]
    decide
  · norm_num [formatPower, fmt1dec, cround]
    decide
  · norm_num [getPowerColor]
  · norm_num [drawMainDisplay, drawPowerValue, drawVoltageCurrentRevised,
      formatPower, formatVoltage, formatCurrent, fmt1dec, cround, getPowerColor,
      beginDisplay, ENABLE_DOUBLE_BUFFER, initialDisplayState, textsOf,
      getTextCenterPos, testMetrics]
    decide

/-- C4: when the seconds segment changes while hours and minutes are
unchanged and the force flag is false, `drawTime` erases and repaints
exactly the fixed-width seconds slot (x = 77, width 28, full status-bar
height) and issues no paint call for the hours slot, the minutes slot or
the separators. -/
theorem seconds_change_repaints_only_seconds_slot (m : Metrics)
    (prev status : StatusData)
    (hh : status.hours = prev.hours) (hm : status.minutes = prev.minutes)
    (hs : status.seconds ≠ prev.seconds) :
    drawTime m prev status false =
      [PaintEvent.fillRect .secondsField 77 0 TIME_SEGMENT_WIDTH
         STATUS_BAR_HEIGHT STATUS_BAR_BG_COLOR,
       PaintEvent.drawText .secondsField status.seconds
         (77 + TIME_SEGMENT_WIDTH - m.textW status.seconds TIME_FONT_SIZE)
         ((STATUS_BAR_HEIGHT - m.textH status.seconds TIME_FONT_SIZE) / 2 + 1)
         TIME_COLOR] := by
  norm_num [drawTime, drawTimeSegment, drawTimeSeparator, hh, hm, hs,
    time_text_left_x, TIME_SEGMENT_WIDTH, TIME_SEPARATOR_WIDTH]

def prevTickStatus : StatusData :=
  { internal_temp := 30, rssi := -60, time_str := "12:34:09"
    hours := "12", minutes := "34", seconds := "09" }

def nextTickStatus : StatusData := { prevTickStatus with seconds := "10" }

theorem seconds_change_repaints_only_seconds_slot_witness :
    (nextTickStatus.hours = prevTickStatus.hours ∧
      nextTickStatus.minutes = prevTickStatus.minutes ∧
      nextTickStatus.seconds ≠ prevTickStatus.seconds) ∧
    drawTime testMetrics prevTickStatus nextTickStatus false =
      [PaintEvent.fillRect .secondsField 77 0 TIME_SEGMENT_WIDTH
         STATUS_BAR_HEIGHT STATUS_BAR_BG_COLOR,
       PaintEvent.drawText .secondsField nextTickStatus.seconds
         (77 + TIME_SEGMENT_WIDTH - testMetrics.textW nextTickStatus.seconds TIME_FONT_SIZE)
         ((STATUS_BAR_HEIGHT - testMetrics.textH nextTickStatus.seconds TIME_FONT_SIZE) / 2 + 1)
         TIME_COLOR] :=
  ⟨⟨by decide, by decide, by decide⟩,
    seconds_change_repaints_only_seconds_slot testMetrics prevTickStatus
      nextTickStatus (by decide) (by decide) (by decide)⟩

/-- C7: when a metric fetch parses a sample with a field outside the
sanity bounds (voltage above 500 or negative), the fetch reports failure,
the consecutive-failure counter increments by exactly one, and the fetch
branch of the loop paints nothing and leaves the display state (the last
known-good rendered values) untouched. -/
theorem out_of_range_sample_rejected (m : Metrics) (app : AppState) (now : ℕ)
    (p : JsonPayload) (hok : p.deserializeOk = true) (hv : p.hasVoltage = true)
    (hc : p.hasCurrent = true) (hp : p.hasPower = true)
    (hbad : p.voltage > 500 ∨ p.voltage < 0) :
    (fetchPowerData app.fetcher now (.okPayload p) app.currentPower).2.2 = false ∧
    (fetchPowerData app.fetcher now (.okPayload p) app.currentPower).1.consecutive_failures
      = app.fetcher.consecutive_failures + 1 ∧
    (fetchCycle m app now (.okPayload p) false).2 = [] ∧
    (fetchCycle m app now (.okPayload p) false).1.disp = app.disp := by
  have hb : (decide (p.voltage < 0) || decide (p.voltage > 500)) = true := by
    rcases hbad with h | h <;> simp [h]
  refine ⟨?_, ?_, ?_, ?_⟩ <;>
    simp [fetchPowerData, fetchCycle, parseJSON, hok, hv, hc, hp, hb]

def overVoltagePayload : JsonPayload :=
  { deserializeOk := true, hasVoltage := true, hasCurrent := true, hasPower := true
    voltage := 600, current := 5, power_active := 1200 }

def steadyApp : AppState :=
  { disp := beginDisplay true true
    fetcher := { last_fetch_time := 3, last_fetch_successful := true, consecutive_failures := 0 }
    currentPower := ⟨230, 4, 900⟩ }

theorem out_of_range_sample_rejected_witness :
    (overVoltagePayload.deserializeOk = true ∧
      overVoltagePayload.hasVoltage = true ∧
      overVoltagePayload.hasCurrent = true ∧
      overVoltagePayload.hasPower = true ∧
      (overVoltagePayload.voltage > 500 ∨ overVoltagePayload.voltage < 0)) ∧
    ((fetchPowerData steadyApp.fetcher 9 (.okPayload overVoltagePayload)
        steadyApp.currentPower).2.2 = false ∧
      (fetchPowerData steadyApp.fetcher 9 (.okPayload overVoltagePayload)
        steadyApp.currentPower).1.consecutive_failures
        = steadyApp.fetcher.consecutive_failures + 1 ∧
      (fetchCycle testMetrics steadyApp 9 (.okPayload overVoltagePayload) false).2 = [] ∧
      (fetchCycle testMetrics steadyApp 9 (.okPayload overVoltagePayload)
        false).1.disp = steadyApp.disp) :=
  ⟨⟨rfl, rfl, rfl, rfl, Or.inl (by norm_num [overVoltagePayload])⟩,
    out_of_range_sample_rejected testMetrics steadyApp 9 overVoltagePayload
      rfl rfl rfl rfl (Or.inl (by norm_num [overVoltagePayload]))⟩

/-- C9 (code evaluation at the failing input): the backoff delay follows
the claimed pattern for small attempt counts (base 1000 ms, doubling,
capped at 16000 ms) and a successful attempt resets the attempt counter,
but at the 29th consecutive failed attempt the 32-bit product
`WIFI_RECONNECT_BACKOFF_MS * (1 << 29)` wraps to 0, so the inter-attempt
delay collapses from 16000 ms to 0 ms and the delay sequence is not
non-decreasing. -/
theorem backoff_delay_wraps_at_attempt_29 :
    backoffDelay 0 = WIFI_RECONNECT_BACKOFF_MS ∧
    backoffDelay 1 = 2000 ∧
    backoffDelay 2 = 4000 ∧
    backoffDelay 3 = 8000 ∧
    backoffDelay 4 = 16000 ∧
    backoffDelay 28 = 16000 ∧
    backoffDelay 29 = 0 ∧
    ¬ (backoffDelay 28 ≤ backoffDelay 29) ∧
    (wifiReconnect ⟨.WIFI_RECONNECTING, 7, 100⟩ false 100000 true).1.reconnect_attempts = 0 := by
  decide

/-- C10: when `fetchPowerData` fails because a parsed value is outside the
sanity bounds, the caller's `PowerData` out-parameter is not left
unchanged: the rejected out-of-range values were already assigned into it
before validation, so after the call it holds them. -/
theorem rejected_values_reach_out_param :
    (fetchPowerData initialFetcherState 0
      (.okPayload ⟨true, true, true, true, 600, 435/100, 1001⟩) ⟨0, 0, 0⟩).2.2 = false ∧
    (fetchPowerData initialFetcherState 0
      (.okPayload ⟨true, true, true, true, 600, 435/100, 1001⟩) ⟨0, 0, 0⟩).2.1 =
      ⟨600, 435/100, 1001⟩ ∧
    (fetchPowerData initialFetcherState 0
      (.okPayload ⟨true, true, true, true, 600, 435/100, 1001⟩) ⟨0, 0, 0⟩).2.1 ≠
      (⟨0, 0, 0⟩ : PowerData) := by
  refine ⟨?_, ?_, ?_⟩ <;>
    norm_num [fetchPowerData, parseJSON, initialFetcherState]

/-! ## Canvas lifetime (C5) -/

theorem drawStatusBar_preserves_canvases (m : Metrics) (s : DisplayState)
    (status : StatusData) (f : Bool) :
    (drawStatusBar m s status f).1.statusCanvas = s.statusCanvas ∧
    (drawStatusBar m s status f).1.mainCanvas = s.mainCanvas := by
  constructor <;> (unfold drawStatusBar; dsimp only; split_ifs <;> rfl)

theorem drawMainDisplay_preserves_canvases (m : Metrics) (s : DisplayState)
    (power : PowerData) (f : Bool) :
    (drawMainDisplay m s power f).1.statusCanvas = s.statusCanvas ∧
    (drawMainDisplay m s power f).1.mainCanvas = s.mainCanvas := by
  constructor <;> rfl

theorem drawInitialUI_preserves_canvases (m : Metrics) (s : DisplayState) (t : ℚ) :
    (drawInitialUI m s t).1.statusCanvas = s.statusCanvas ∧
    (drawInitialUI m s t).1.mainCanvas = s.mainCanvas := by
  unfold drawInitialUI
  dsimp only
  constructor
  · rw [(drawMainDisplay_preserves_canvases m _ _ _).1,
      (drawStatusBar_preserves_canvases m s _ _).1]
  · rw [(drawMainDisplay_preserves_canvases m _ _ _).2,
      (drawStatusBar_preserves_canvases m s _ _).2]

theorem applyOp_preserves_canvases (m : Metrics) (s : DisplayState) (op : DisplayOp) :
    (applyOp m s op).1.statusCanvas = s.statusCanvas ∧
    (applyOp m s op).1.mainCanvas = s.mainCanvas := by
  cases op with
  | statusBarOp status f => exact drawStatusBar_preserves_canvases m s status f
  | mainDisplayOp power f => exact drawMainDisplay_preserves_canvases m s power f
  | initialUIOp t => exact drawInitialUI_preserves_canvases m s t
  | fullScreenMessageOp text sz c => exact ⟨rfl, rfl⟩

theorem runOps_preserves_canvases (m : Metrics) (ops : List DisplayOp) :
    ∀ s : DisplayState,
      (runOps m s ops).1.statusCanvas = s.statusCanvas ∧
      (runOps m s ops).1.mainCanvas = s.mainCanvas := by
  induction ops with
  | nil => intro s; exact ⟨rfl, rfl⟩
  | cons op rest ih =>
    intro s
    have h1 := applyOp_preserves_canvases m s op
    have h2 := ih (applyOp m s op).1
    simp only [runOps]
    exact ⟨h2.1.trans h1.1, h2.2.trans h1.2⟩

/-- C5: if the allocation of a region's off-screen canvas fails in
`begin` (the handle is deleted and nulled on a null handle or null
buffer), then after any sequence of display operations the sketch can
perform, that region's canvas is still absent — no operation reallocates
it — and `getDrawTarget` for that region returns the physical panel. -/
theorem canvas_alloc_failure_is_permanent (m : Metrics) (ops : List DisplayOp)
    (statusAllocOk mainAllocOk : Bool) :
    ((runOps m (beginDisplay statusAllocOk false) ops).1.mainCanvas = false ∧
      getDrawTarget (runOps m (beginDisplay statusAllocOk false) ops).1.mainCanvas =
        DrawTarget.panelTarget) ∧
    ((runOps m (beginDisplay false mainAllocOk) ops).1.statusCanvas = false ∧
      getDrawTarget (runOps m (beginDisplay false mainAllocOk) ops).1.statusCanvas =
        DrawTarget.panelTarget) := by
  have h1 : (runOps m (beginDisplay statusAllocOk false) ops).1.mainCanvas = false := by
    rw [(runOps_preserves_canvases m ops _).2]
    simp [beginDisplay, ENABLE_DOUBLE_BUFFER]
  have h2 : (runOps m (beginDisplay false mainAllocOk) ops).1.statusCanvas = false := by
    rw [(runOps_preserves_canvases m ops _).1]
    simp [beginDisplay, ENABLE_DOUBLE_BUFFER]
  exact ⟨⟨h1, by rw [h1]; rfl⟩, ⟨h2, by rw [h2]; rfl⟩⟩

/-! ## Render-state mutation discipline (C6) -/

theorem hasFill_drawWiFiIcon (g : UiField) (l : ℤ) :
    hasFill g (drawWiFiIcon l) = decide (UiField.wifiField = g) := by
  simp [drawWiFiIcon, hasFill, isFillOf]

theorem hasFill_drawTemperature (g : UiField) (m : Metrics) (t : ℤ) :
    hasFill g (drawTemperature m t) = decide (UiField.temperatureField = g) := by
  simp [drawTemperature, hasFill, isFillOf]

theorem hasFill_drawTimeSegment (m : Metrics) (f g : UiField)
    (text prev_text : String) (x : ℤ) (force : Bool) :
    hasFill g (drawTimeSegment m f text prev_text x force) =
      ((decide (text ≠ prev_text) || force) && decide (f = g)) := by
  unfold drawTimeSegment
  split_ifs with h <;> simp_all [hasFill, isFillOf]

theorem hasFill_drawTimeSeparator (g : UiField) (x : ℤ) (force : Bool) :
    hasFill g (drawTimeSeparator x force) = false := by
  unfold drawTimeSeparator
  split_ifs <;> simp [hasFill, isFillOf]

theorem hasFill_drawTime (m : Metrics) (g : UiField) (prev status : StatusData)
    (force : Bool) :
    hasFill g (drawTime m prev status force) =
      ((decide (status.hours ≠ prev.hours) || force) && decide (UiField.hoursField = g) ||
       (decide (status.minutes ≠ prev.minutes) || force) && decide (UiField.minutesField = g) ||
       (decide (status.seconds ≠ prev.seconds) || force) && decide (UiField.secondsField = g)) := by
  simp [drawTime, hasFill_append, hasFill_drawTimeSegment, hasFill_drawTimeSeparator,
    Bool.or_assoc]

theorem hasFill_clear (g : UiField) (r : Region) (c : ℕ) :
    hasFill g [PaintEvent.clearCanvas r c] = false := rfl

theorem hasFill_flush (g : UiField) (r : Region) (x y : ℤ) :
    hasFill g [PaintEvent.flushRegion r x y] = false := rfl


/-- A direct-mode render state as left after painting a 100 W sample. -/
def staleState : DisplayState :=
  { statusCanvas := false
    mainCanvas := false
    buffer_mode := .DIRECT
    prev_power := ⟨230, 4, 100⟩
    prev_status := initStatus 30
    prev_power_color := POWER_COLOR_NORMAL
    prev_rssi_level := 2 }

/-- The next sample: activePower drifted by 0.3 W, below the threshold. -/
def driftedPower : PowerData := ⟨230, 4, 1003/10⟩

def quietStatus : StatusData :=
  { internal_temp := 30, rssi := -60, time_str := "10:00:00"
    hours := "10", minutes := "00", seconds := "00" }

/-- A direct-mode render state already in sync with `quietStatus`. -/
def quietState : DisplayState :=
  { statusCanvas := false
    mainCanvas := false
    buffer_mode := .DIRECT
    prev_power := ⟨230, 4, 900⟩
    prev_status := quietStatus
    prev_power_color := POWER_COLOR_NORMAL
    prev_rssi_level := 3 }

set_option maxHeartbeats 2000000 in
/-- C6 (amended): for the status-bar fields (signal level, temperature and
the three time segments) the stored previous value is left unchanged by a
render cycle that issues no fill for that field, as the claim states; the
main-display fields however do not satisfy the claim: `drawMainDisplay`
overwrites the stored previous sample and power color with the new sample
unconditionally at the end of every call, including calls that painted
nothing. -/
theorem render_state_mutation_policy (m : Metrics) (s : DisplayState)
    (status : StatusData) (power : PowerData) (f1 f2 : Bool) :
    ((hasFill .wifiField (drawStatusBar m s status f1).2 = false →
        (drawStatusBar m s status f1).1.prev_rssi_level = s.prev_rssi_level) ∧
     (hasFill .temperatureField (drawStatusBar m s status f1).2 = false →
        (drawStatusBar m s status f1).1.prev_status.internal_temp =
          s.prev_status.internal_temp) ∧
     (hasFill .hoursField (drawStatusBar m s status f1).2 = false →
        (drawStatusBar m s status f1).1.prev_status.hours = s.prev_status.hours) ∧
     (hasFill .minutesField (drawStatusBar m s status f1).2 = false →
        (drawStatusBar m s status f1).1.prev_status.minutes = s.prev_status.minutes) ∧
     (hasFill .secondsField (drawStatusBar m s status f1).2 = false →
        (drawStatusBar m s status f1).1.prev_status.seconds = s.prev_status.seconds)) ∧
    (drawMainDisplay m s power f2).1.prev_power = power ∧
    (drawMainDisplay m s power f2).1.prev_power_color =
      getPowerColor power.power_active := by
  refine ⟨⟨?_, ?_, ?_, ?_, ?_⟩, rfl, rfl⟩ <;>
  · intro h
    unfold drawStatusBar at h ⊢
    dsimp only at h ⊢
    split_ifs at h ⊢ <;>
      simp_all only [hasFill_nil, hasFill_append, hasFill_clear, hasFill_flush,
        hasFill_drawWiFiIcon, hasFill_drawTemperature, hasFill_drawTime,
        Bool.or_eq_false_iff, Bool.and_eq_false_iff, Bool.or_eq_true_iff,
        Bool.and_eq_true_iff, decide_eq_false_iff_not, decide_eq_true_eq,
        decide_eq_false, Bool.not_eq_true, Bool.false_or, Bool.or_false,
        Bool.true_and, Bool.and_true, Bool.false_and, Bool.and_false,
        Bool.true_or, Bool.or_true, not_true, not_false_iff, ne_eq,
        not_not] <;>
      first
        | rfl
        | simp_all

/-- C6 counterexample: in direct mode a main-display cycle whose power
value drifts by 0.3 W (below the 0.5 W threshold, same color bucket, no
voltage or current change, force flag false) issues no paint event at
all, yet the stored previous sample is mutated to the new sample —
refuting the claim that an unpainted field's stored previous value is
left unchanged. -/
theorem prev_power_mutated_without_paint :
    (drawMainDisplay testMetrics staleState driftedPower false).2 = [] ∧
    (drawMainDisplay testMetrics staleState driftedPower false).1.prev_power ≠
      staleState.prev_power := by
  constructor
  · norm_num [drawMainDisplay, drawPowerValue, drawVoltageCurrentRevised,
      staleState, driftedPower, POWER_CHANGE_THRESHOLD, CURRENT_CHANGE_THRESHOLD,
      getPowerColor, POWER_COLOR_NORMAL, abs_le]
  · norm_num [drawMainDisplay, staleState, driftedPower]

theorem render_state_mutation_policy_witness :
    hasFill .wifiField (drawStatusBar testMetrics quietState quietStatus false).2 = false ∧
    (drawStatusBar testMetrics quietState quietStatus false).1.prev_rssi_level =
      quietState.prev_rssi_level :=
  ⟨by norm_num [drawStatusBar, quietState, quietStatus, getRSSILevel, hasFill],
    (render_state_mutation_policy testMetrics quietState quietStatus
      ⟨0, 0, 0⟩ false false).1.1
      (by norm_num [drawStatusBar, quietState, quietStatus, getRSSILevel, hasFill])⟩

set_option maxHeartbeats 2000000 in
/-- C8: on the success path of `handleWiFiDisconnection` the recovery
cycle (the events drawn after `reconnect()` returns true) contains
exactly one repaint of every displayed field regardless of the previous
values: one area fill each for the power, voltage, current, hours,
minutes, seconds and temperature fields and the single five-fill WiFi
icon repaint (its background plus four bars), and the render-state
baseline is re-established to the placeholder values of `drawInitialUI`. -/
theorem recovery_forces_one_full_redraw (m : Metrics) (s : DisplayState)
    (status0 : StatusData) (temp1 temp3 : ℚ) :
    countFill .powerField (handleWiFiDisconnectionSuccess m s status0 temp1 temp3).2.2 = 1 ∧
    countFill .voltageField (handleWiFiDisconnectionSuccess m s status0 temp1 temp3).2.2 = 1 ∧
    countFill .currentField (handleWiFiDisconnectionSuccess m s status0 temp1 temp3).2.2 = 1 ∧
    countFill .hoursField (handleWiFiDisconnectionSuccess m s status0 temp1 temp3).2.2 = 1 ∧
    countFill .minutesField (handleWiFiDisconnectionSuccess m s status0 temp1 temp3).2.2 = 1 ∧
    countFill .secondsField (handleWiFiDisconnectionSuccess m s status0 temp1 temp3).2.2 = 1 ∧
    countFill .temperatureField (handleWiFiDisconnectionSuccess m s status0 temp1 temp3).2.2 = 1 ∧
    countFill .wifiField (handleWiFiDisconnectionSuccess m s status0 temp1 temp3).2.2 = 5 ∧
    (handleWiFiDisconnectionSuccess m s status0 temp1 temp3).1.prev_power = ⟨0, 0, 0⟩ ∧
    (handleWiFiDisconnectionSuccess m s status0 temp1 temp3).1.prev_power_color =
      POWER_COLOR_NORMAL ∧
    (handleWiFiDisconnectionSuccess m s status0 temp1 temp3).1.prev_status = initStatus temp3 ∧
    (handleWiFiDisconnectionSuccess m s status0 temp1 temp3).1.prev_rssi_level = 0 := by
  have hlevel : getRSSILevel (-100) = 0 := by norm_num [getRSSILevel]
  cases hc1 : s.statusCanvas <;> cases hc2 : s.mainCanvas <;>
    simp [handleWiFiDisconnectionSuccess, drawInitialUI, drawStatusBar, drawMainDisplay,
      drawFullScreenMessage, drawWiFiIcon, drawTemperature, drawTime, drawTimeSegment,
      drawTimeSeparator, drawPowerValue, drawVoltageCurrentRevised, countFill, isFillOf,
      hc1, hc2, initStatus, hlevel]
